import Mathlib

/-!
Shallow embedding of the python-image-utils repository.

The authoritative implementation lives in src/image_utils/ (settings,
validator, directory scanner, resize task, batch entry point); two earlier
drafts live in src/py_image_resizer.py and src/py_resizer/py_image_resizer.py.
Pure path arithmetic (pathlib stem/suffix manipulation) is translated
directly; the filesystem is an explicit association list from paths to entry
kinds; the opaque PIL codec is abstracted (the tuple handed to its resize
call and the save call are recorded, and a boolean models whether save
raises); glob is an explicit function parameter.  Python exceptions become
Except values, and process exit and thread fan-out are explicit constructors
of the result types.
-/

/-- Index of the last dot in a list of characters, if any
(mirrors the rfind call inside pathlib suffix computation). -/
def lastDotIdx : List Char → Option Nat
  | [] => none
  | c :: rest =>
    match lastDotIdx rest with
    | some i => some (i + 1)
    | none => if c = '.' then some 0 else none

/-- pathlib splits a file name into stem and suffix at the last dot,
provided that dot is neither the first nor the last character; otherwise the
suffix is empty. -/
def splitExtList (cs : List Char) : List Char × List Char :=
  match lastDotIdx cs with
  | some i => if 0 < i ∧ i < cs.length - 1 then (cs.take i, cs.drop i) else (cs, [])
  | none => (cs, [])

/-- The stem of a file name (pathlib PurePath.stem). -/
def pathStem (name : String) : String := String.mk (splitExtList name.data).1

/-- The suffix of a file name, leading dot included (pathlib PurePath.suffix). -/
def pathSuffix (name : String) : String := String.mk (splitExtList name.data).2

/-- ASCII lower-casing, as python str.lower on the identifiers used here. -/
def strLower (s : String) : String := String.mk (s.data.map Char.toLower)

/-- ASCII upper-casing, as python str.upper on the identifiers used here. -/
def strUpper (s : String) : String := String.mk (s.data.map Char.toUpper)

/-- python str.startswith applied to the single-character pattern dot. -/
def startsWithDot (e : String) : Bool :=
  match e.data with
  | [] => false
  | c :: _ => c = '.'

/-- A filesystem path, split as pathlib sees it: the parent directory
components and the final name component. -/
structure PyPath where
  dir : List String
  name : String
deriving DecidableEq

/-- pathlib PurePath.suffix of the final component. -/
def PyPath.suffix (p : PyPath) : String := pathSuffix p.name

/-- pathlib PurePath.stem of the final component. -/
def PyPath.stem (p : PyPath) : String := pathStem p.name

/-- pathlib with_name: replace the final component. -/
def PyPath.withName (p : PyPath) (n : String) : PyPath := { p with name := n }

/-- pathlib with_suffix: replace the suffix, keeping the stem. -/
def PyPath.withSuffix (p : PyPath) (s : String) : PyPath :=
  { p with name := p.stem ++ s }

/-- pathlib with_stem: replace the stem, keeping the suffix. -/
def PyPath.withStem (p : PyPath) (s : String) : PyPath :=
  { p with name := s ++ p.suffix }

/-- Rendering of a path for interpolation into error messages. -/
def PyPath.toStr (p : PyPath) : String :=
  String.intercalate "/" (p.dir ++ [p.name])

/-- Kind of a filesystem entry. -/
inductive FSKind where
  | file
  | directory
deriving DecidableEq

/-- The filesystem as seen by the code: an association list from paths to
entry kinds. -/
abbrev FS := List (PyPath × FSKind)

/-- Look up the kind of entry at a path, if one exists. -/
def fsLookup : FS → PyPath → Option FSKind
  | [], _ => none
  | (q, k) :: rest, p => if q = p then some k else fsLookup rest p

/-- pathlib Path.exists. -/
def fsExistsAt (fs : FS) (p : PyPath) : Bool := (fsLookup fs p).isSome

/-- pathlib Path.is_file. -/
def fsIsFile (fs : FS) (p : PyPath) : Bool :=
  match fsLookup fs p with
  | some FSKind.file => true
  | _ => false

/-- pathlib Path.is_dir. -/
def fsIsDir (fs : FS) (p : PyPath) : Bool :=
  match fsLookup fs p with
  | some FSKind.directory => true
  | _ => false

/-- The exception taxonomy of image_utils.core.exceptions together with the
built-in exceptions the validator raises. -/
inductive ImgError where
  | FileNotFoundError (msg : String)
  | NotAFileError (msg : String)
  | NotADirectoryError (msg : String)
  | InvalidImageTypeError (msg : String)
  | MutualExclusionError (msg : String)
  | MissingRequiredPathError (msg : String)
deriving DecidableEq

/-- The module-level configuration of image_utils.config.settings.
default_extension is an Option so that the hasattr check in resize_image
can be modelled: none means the attribute is absent from the module. -/
structure Settings where
  verbose : Bool
  default_extension : Option String
  skip_existing_files : Bool
  override_existing_files : Bool
  supported_extensions : List String
deriving DecidableEq

/-- The shipped values of src/image_utils/config/settings.py. -/
def settings : Settings :=
  { verbose := true
    default_extension := some "jpeg"
    skip_existing_files := true
    override_existing_files := false
    supported_extensions := ["png", "jpg", "gif", "jpeg"] }

/-- src/image_utils/core/utils.py get_supported_extensions_as_str,
parameterised by the extension list it reads from settings.  The python
original indexes the last element and raises IndexError on an empty tuple;
none models that case. -/
def get_supported_extensions_as_str (exts : List String) : Option String :=
  match exts.getLast? with
  | none => none
  | some last => some (String.intercalate ", " exts.dropLast ++ " or " ++ last)

/-- The InvalidImageTypeError message built in Validator.validate_file_extensions.
The global extension set is non-empty, so the empty-list default is never
taken. -/
def invalid_image_type_msg (cfg : Settings) : String :=
  "The image file extension is not supported, supported extensions must be one of the following "
    ++ (get_supported_extensions_as_str cfg.supported_extensions).getD ""

/-- Message of MutualExclusionError (two python string literals juxtaposed
without a separating space, exactly as in the source). -/
def mutual_exclusion_msg : String :=
  "img_paths and img_dir are mutually exclusiveonly one of these may be provided"

/-- Message of MissingRequiredPathError. -/
def missing_required_msg : String := "img_paths or img_dir must be provided"

/-- Validator.validate_path: existence check. -/
def validate_path (fs : FS) (p : PyPath) : Except ImgError PyPath :=
  if fsExistsAt fs p then .ok p
  else .error (.FileNotFoundError
    (p.toStr ++ " was not found in your path, kindly review the path provided"))

/-- Validator.validate_file_extensions: the lower-cased suffix with the
leading dot stripped must be in the supported set. -/
def validate_file_extensions (cfg : Settings) (file_ : PyPath) :
    Except ImgError Unit :=
  if (strLower file_.suffix).drop 1 ∈ cfg.supported_extensions then .ok ()
  else .error (.InvalidImageTypeError (invalid_image_type_msg cfg))

/-- Validator.validate_file: path existence, regular-file check, then the
extension check. -/
def validate_file (cfg : Settings) (fs : FS) (p : PyPath) :
    Except ImgError PyPath :=
  match validate_path fs p with
  | .error e => .error e
  | .ok path =>
    if fsIsFile fs path then
      match validate_file_extensions cfg path with
      | .error e => .error e
      | .ok _ => .ok path
    else
      .error (.NotAFileError
        (path.toStr ++ " exists but is not a file, kindly pass a valid file path"))

/-- Validator.validate_directory: path existence then directory-kind check. -/
def validate_directory (fs : FS) (p : PyPath) : Except ImgError PyPath :=
  match validate_path fs p with
  | .error e => .error e
  | .ok path =>
    if fsIsDir fs path then .ok path
    else
      .error (.NotADirectoryError
        (path.toStr ++ " exists but is not a directory, kindly pass a valid directory path"))

/-- Validator.validate_path_args.  Python truthiness: a tuple is truthy when
non-empty, and the optional directory is truthy when present. -/
def validate_path_args (img_paths : List PyPath) (img_dir : Option PyPath) :
    Except ImgError Unit :=
  if !img_paths.isEmpty && img_dir.isSome then
    .error (.MutualExclusionError mutual_exclusion_msg)
  else if img_paths.isEmpty && img_dir.isNone then
    .error (.MissingRequiredPathError missing_required_msg)
  else .ok ()

/-- The suffix normalisation inside ImageResizer.resize_image: lower-case,
with a leading dot added when absent. -/
def normalizeSuffix (e : String) : String :=
  if startsWithDot e then strLower e else "." ++ strLower e

/-- The extension-replacement step of ImageResizer.resize_image.
Python truthiness: both None and the empty string leave the path alone. -/
def apply_extension (extension : Option String) (p : PyPath) : PyPath :=
  match extension with
  | some e => if e ≠ "" then p.withSuffix (normalizeSuffix e) else p
  | none => p

/-- The hasattr check in ImageResizer.resize_image: whenever the settings
module has a DEFAULT_EXTENSION attribute, it replaces the caller-supplied
extension argument. -/
def effective_extension (cfg : Settings) (extension : Option String) :
    Option String :=
  match cfg.default_extension with
  | some d => some d
  | none => extension

/-- The candidate output path computed by ImageResizer.resize_image before
the collision check: extension replacement, then the resized_ name prefixing
via with_name. -/
def candidate_path (cfg : Settings) (extension : Option String) (p : PyPath) :
    PyPath :=
  let q := apply_extension (effective_extension cfg extension) p
  q.withName ("resized_" ++ q.name)

/-- The collision disambiguation of ImageResizer.resize_image: the hex token
of uuid4 joined to the stem by a hyphen, installed via with_stem. -/
def uuid_variant (uuidHex : String) (c : PyPath) : PyPath :=
  c.withStem (c.stem ++ "-" ++ uuidHex)

/-- The hex form of uuid4: 32 lower-case hexadecimal characters, 128 random
bits. -/
def isHex128 (s : String) : Prop :=
  s.length = 32 ∧ s.data.all (fun ch => ch.isDigit || ('a' ≤ ch && ch ≤ 'f')) = true

/-- Observable outcome of one ImageResizer.resize_image call.
returned is the value handed back to the caller, or the exception that
escaped the function; written records the save call that succeeded, with the
format string and quality argument; saveFailed is set when save raised and
the except branch swallowed the exception; resizeCall records the dimension
tuple handed to the codec resize call. -/
structure ResizeResult where
  returned : Except ImgError PyPath
  written : Option (PyPath × String × Nat)
  saveFailed : Bool
  resizeCall : Option (Nat × Nat)

/-- ImageResizer.resize_image of src/image_utils/image_resizer/image_resizer.py,
line by line: validate_file (an exception here escapes the function), the
unconditional DEFAULT_EXTENSION override, the codec resize call with the
tuple (img_width, img_height), extension replacement, the resized_ name, the
format derived from the suffix, the collision block (early return when
SKIP_EXISTING_FILES is false, uuid disambiguation when it is true and
OVERRIDE_EXISTING_FILES is false), and the save call wrapped in try/except
with the function returning the path in either case.  uuidHex stands for the
uuid4().hex drawn at the call, saveRaises for whether the save call raises. -/
def resize_image (cfg : Settings) (fs : FS) (uuidHex : String)
    (saveRaises : Bool) (img_path : PyPath) (extension : Option String)
    (img_height : Nat) (img_width : Nat) : ResizeResult :=
  match validate_file cfg fs img_path with
  | .error e =>
    { returned := .error e, written := none, saveFailed := false, resizeCall := none }
  | .ok p =>
    let dims := (img_width, img_height)
    let q := apply_extension (effective_extension cfg extension) p
    let img_format := (strUpper q.suffix).drop 1
    let c := candidate_path cfg extension p
    if fsExistsAt fs c && !cfg.skip_existing_files then
      { returned := .ok c, written := none, saveFailed := false,
        resizeCall := some dims }
    else
      let dest :=
        if fsExistsAt fs c && (cfg.skip_existing_files && !cfg.override_existing_files)
        then uuid_variant uuidHex c else c
      if saveRaises then
        { returned := .ok dest, written := none, saveFailed := true,
          resizeCall := some dims }
      else
        { returned := .ok dest, written := some (dest, img_format, 90),
          saveFailed := false, resizeCall := some dims }

/-- Outcome of IImageResizer.get_paths_from_dir: a raised exception, a
process exit with the given status, or the returned list of paths. -/
inductive ScanResult where
  | err (e : ImgError)
  | exited (code : Nat)
  | found (paths : List PyPath)
deriving DecidableEq

/-- IImageResizer.get_paths_from_dir of src/image_utils/image_resizer/base.py.
globFn abstracts pathlib glob/rglob: directory, recursive flag and pattern to
the ordered match list.  The loop extends found_files with the matches of
each extension in order, skipping (with only a message) the extensions that
match nothing; an empty accumulated result triggers exit(0) when
exit_if_empty is set, and is returned otherwise. -/
def get_paths_from_dir (fs : FS) (globFn : PyPath → Bool → String → List PyPath)
    (dir : PyPath) (extensions : List String) (recursive : Bool)
    (exit_if_empty : Bool) : ScanResult :=
  match validate_directory fs dir with
  | .error e => .err e
  | .ok d =>
    let found_files :=
      extensions.foldl (fun acc ext => acc ++ globFn d recursive ("*." ++ ext)) []
    if found_files.isEmpty then
      if exit_if_empty then .exited 0 else .found []
    else .found found_files

/-- The python expression extensions or settings.SUPPORTED_EXTENSIONS in
resize_bulk_images: an absent or empty extension list falls back to the
configured set. -/
def effective_scan_extensions (cfg : Settings) (extensions : Option (List String)) :
    List String :=
  match extensions with
  | some l => if l.isEmpty then cfg.supported_extensions else l
  | none => cfg.supported_extensions

/-- Outcome of ImageResizer.resize_bulk_images: a raised exception, a process
exit propagated from the scanner, or completion after starting one thread
per resolved path (each thread runs resize_image with the save_as extension
and the dimension kwargs) and joining them all. -/
inductive BulkResult where
  | err (e : ImgError)
  | exited (code : Nat)
  | completed (tasks : List (PyPath × String × Nat × Nat))
deriving DecidableEq

/-- ImageResizer.resize_bulk_images of
src/image_utils/image_resizer/image_resizer.py: validate_path_args first,
then the resolved input set (the explicit tuple when truthy, otherwise the
directory scan with the default exit_if_empty), then one thread per path,
all joined. -/
def resize_bulk_images (cfg : Settings) (fs : FS)
    (globFn : PyPath → Bool → String → List PyPath)
    (img_paths : List PyPath) (img_dir : Option PyPath) (save_as : String)
    (extensions : Option (List String)) (img_height : Nat) (img_width : Nat)
    (recursive : Bool) : BulkResult :=
  match validate_path_args img_paths img_dir with
  | .error e => .err e
  | .ok _ =>
    if !img_paths.isEmpty then
      .completed (img_paths.map (fun p => (p, save_as, img_height, img_width)))
    else
      match img_dir with
      | none => .completed []
      | some d =>
        match get_paths_from_dir fs globFn d
            (effective_scan_extensions cfg extensions) recursive true with
        | .err e => .err e
        | .exited c => .exited c
        | .found ps =>
          .completed (ps.map (fun p => (p, save_as, img_height, img_width)))

/-- Dimension tuple handed to the codec resize call by
ImageResizer.resize_image in src/image_utils/image_resizer/image_resizer.py. -/
def resize_dims_image_utils (img_width img_height : Nat) : Nat × Nat :=
  (img_width, img_height)

/-- Dimension tuple handed to the codec resize call by resize_image in the
root draft src/py_image_resizer.py. -/
def resize_dims_root_draft (img_width img_height : Nat) : Nat × Nat :=
  (img_height, img_width)

/-- Dimension tuple handed to the codec resize call by resize_image in
src/py_resizer/py_image_resizer.py. -/
def resize_dims_py_resizer (img_width img_height : Nat) : Nat × Nat :=
  (img_width, img_height)

/-- Concrete input file used by several evaluations below. -/
def pA : PyPath := { dir := ["d"], name := "a.jpg" }

/-- The candidate output the code computes for pA under the shipped
settings (the DEFAULT_EXTENSION override turns the suffix into .jpeg). -/
def candA : PyPath := { dir := ["d"], name := "resized_a.jpeg" }

/-- A concrete 32-character value standing for uuid4().hex. -/
def hex32 : String := "00112233445566778899aabbccddeeff"

/-- The uuid-disambiguated output path for candA and hex32. -/
def uuidA : PyPath :=
  { dir := ["d"], name := "resized_a-00112233445566778899aabbccddeeff.jpeg" }

/-- Filesystem in which both the input and its candidate output exist. -/
def fsC1 : FS := [(pA, FSKind.file), (candA, FSKind.file)]

/-- Filesystem in which only the input exists. -/
def fsC2 : FS := [(pA, FSKind.file)]

/-- Filesystem in which the input, the candidate output and even the
uuid-disambiguated output all exist. -/
def fsC7 : FS := [(pA, FSKind.file), (candA, FSKind.file), (uuidA, FSKind.file)]

/-- A path present in no filesystem used here. -/
def pMissing : PyPath := { dir := ["d"], name := "ghost.jpg" }

/-- A concrete directory. -/
def dDir : PyPath := { dir := [], name := "photos" }

/-- Filesystem holding only the directory dDir. -/
def fsD : FS := [(dDir, FSKind.directory)]

/-- A glob function that matches nothing. -/
def emptyGlob : PyPath → Bool → String → List PyPath := fun _ _ _ => []

/-- A png file inside dDir. -/
def paPng : PyPath := { dir := ["photos"], name := "a.png" }

/-- A jpg file inside dDir. -/
def pbJpg : PyPath := { dir := ["photos"], name := "b.jpg" }

/-- A glob function over a directory holding a.png, b.jpg and c.txt: the
png pattern matches a.png, the jpg pattern matches b.jpg, and every other
pattern matches nothing. -/
def globW : PyPath → Bool → String → List PyPath := fun _ _ pat =>
  if pat = "*.png" then [paPng] else if pat = "*.jpg" then [pbJpg] else []

/-- A supported image file at the filesystem root. -/
def pPng : PyPath := { dir := [], name := "x.png" }

/-- An existing regular file with an unsupported extension. -/
def pTxt : PyPath := { dir := [], name := "x.txt" }

/-- An existing directory, handed to the file validator. -/
def pSub : PyPath := { dir := [], name := "sub" }

/-- Filesystem for the validator evaluations. -/
def fsW : FS := [(pPng, FSKind.file), (pTxt, FSKind.file), (pSub, FSKind.directory)]

theorem strmk_append (a b : List Char) :
    String.mk a ++ String.mk b = String.mk (a ++ b) := rfl

theorem splitExt_fst_append_snd (cs : List Char) :
    (splitExtList cs).1 ++ (splitExtList cs).2 = cs := by
  unfold splitExtList
  cases lastDotIdx cs with
  | none => simp
  | some i =>
    by_cases hc : 0 < i ∧ i < cs.length - 1
    · simp [hc, List.take_append_drop]
    · simp [hc]

theorem stem_append_suffix (p : PyPath) : p.stem ++ p.suffix = p.name := by
  show String.mk _ ++ String.mk _ = p.name
  rw [strmk_append, splitExt_fst_append_snd]

theorem validate_file_fs_congr (cfg : Settings) (fs fs2 : FS) (p : PyPath)
    (h : fsLookup fs2 p = fsLookup fs p) :
    validate_file cfg fs2 p = validate_file cfg fs p := by
  unfold validate_file validate_path fsExistsAt fsIsFile
  rw [h]
  cases hk : fsLookup fs p with
  | none => simp [hk]
  | some k => simp [hk, h]

theorem foldl_append_eq_flatten {α β : Type} (f : α → List β) (l : List α)
    (acc : List β) :
    List.foldl (fun a x => a ++ f x) acc l = acc ++ (l.map f).flatten := by
  induction l generalizing acc with
  | nil => simp
  | cons x xs ih => simp [ih, List.append_assoc]

theorem flatten_eq_nil_of_forall {α β : Type} (f : α → List β) (l : List α)
    (h : ∀ x ∈ l, f x = []) : (l.map f).flatten = [] := by
  induction l with
  | nil => rfl
  | cons x xs ih =>
    simp only [List.map_cons, List.flatten_cons, h x (List.mem_cons_self x xs)]
    exact ih (fun y hy => h y (List.mem_cons_of_mem x hy))

/-- Claim C10: the supported-extensions message formatter yields the
comma-and-or enumeration only for lists of two or more elements; on a
singleton list it returns the string consisting of a leading or-separator
followed by the sole element, with nothing before it. -/
theorem c10_supported_extensions_singleton_format :
    (∀ x : String, get_supported_extensions_as_str [x] = some (" or " ++ x))
  ∧ (∀ a b : String,
      get_supported_extensions_as_str [a, b] = some (a ++ " or " ++ b)) := by
  constructor
  · intro x
    rfl
  · intro a b
    rfl

/-- Claim C4: validate_path_args fails with MutualExclusionError when both a
non-empty path tuple and a directory are supplied, fails with
MissingRequiredPathError when neither is, succeeds when exactly one is, and
an argument failure makes the batch entry point fail with that same error
before any scan or task launch, whatever the filesystem and glob behaviour. -/
theorem c4_validate_path_args_spec (paths : List PyPath) (dirArg : Option PyPath) :
    (paths ≠ [] → dirArg.isSome = true → validate_path_args paths dirArg
        = Except.error (ImgError.MutualExclusionError mutual_exclusion_msg))
  ∧ (paths = [] → dirArg = none → validate_path_args paths dirArg
        = Except.error (ImgError.MissingRequiredPathError missing_required_msg))
  ∧ (paths ≠ [] → dirArg = none → validate_path_args paths dirArg = Except.ok ())
  ∧ (paths = [] → dirArg.isSome = true → validate_path_args paths dirArg = Except.ok ())
  ∧ (∀ e, validate_path_args paths dirArg = Except.error e →
      ∀ cfg fs globFn save_as exts hgt wdt rcv,
        resize_bulk_images cfg fs globFn paths dirArg save_as exts hgt wdt rcv
          = BulkResult.err e) := by
  refine ⟨?_, ?_, ?_, ?_, ?_⟩
  · intro hp hd
    cases paths with
    | nil => exact absurd rfl hp
    | cons a l =>
      cases dirArg with
      | none => simp at hd
      | some d => rfl
  · intro hp hd
    subst hp
    subst hd
    rfl
  · intro hp hd
    subst hd
    cases paths with
    | nil => exact absurd rfl hp
    | cons a l => rfl
  · intro hp hd
    subst hp
    cases dirArg with
    | none => simp at hd
    | some d => rfl
  · intro e h cfg fs globFn save_as exts hgt wdt rcv
    simp only [resize_bulk_images, h]

/-- Claim C6: for an existing regular file, validate_file succeeds exactly
when the lower-cased dot-stripped extension is in the supported set and
otherwise fails with InvalidImageTypeError whose message enumerates the
supported extensions joined by commas with the final or-separator; a missing
path fails with the not-found error and an existing non-file path with
NotAFileError. -/
theorem c6_validate_file_spec (fs : FS) (p : PyPath) :
    (fsLookup fs p = none →
        validate_file settings fs p = Except.error (ImgError.FileNotFoundError
          (p.toStr ++ " was not found in your path, kindly review the path provided")))
  ∧ (fsLookup fs p = some FSKind.directory →
        validate_file settings fs p = Except.error (ImgError.NotAFileError
          (p.toStr ++ " exists but is not a file, kindly pass a valid file path")))
  ∧ (fsLookup fs p = some FSKind.file →
        (validate_file settings fs p = Except.ok p ↔
          (strLower p.suffix).drop 1 ∈ settings.supported_extensions)
      ∧ ((strLower p.suffix).drop 1 ∉ settings.supported_extensions →
          validate_file settings fs p = Except.error
            (ImgError.InvalidImageTypeError (invalid_image_type_msg settings))))
  ∧ invalid_image_type_msg settings
      = "The image file extension is not supported, supported extensions must be one of the following png, jpg, gif or jpeg"
  ∧ get_supported_extensions_as_str settings.supported_extensions
      = some "png, jpg, gif or jpeg" := by
  refine ⟨?_, ?_, ?_, rfl, rfl⟩
  · intro h
    simp [validate_file, validate_path, fsExistsAt, h]
  · intro h
    simp [validate_file, validate_path, fsExistsAt, fsIsFile, h]
  · intro h
    constructor
    · constructor
      · intro hv
        by_contra hmem
        simp [validate_file, validate_path, fsExistsAt, fsIsFile, h,
          validate_file_extensions, hmem] at hv
      · intro hmem
        simp [validate_file, validate_path, fsExistsAt, fsIsFile, h,
          validate_file_extensions, hmem]
    · intro hmem
      simp [validate_file, validate_path, fsExistsAt, fsIsFile, h,
        validate_file_extensions, hmem]

/-- Concrete witness for claim C6, instantiating the characterisation at a
supported file, an unsupported file, a directory and a missing path. -/
theorem c6_validate_file_spec_witness :
    validate_file settings fsW pPng = Except.ok pPng
  ∧ validate_file settings fsW pTxt = Except.error
      (ImgError.InvalidImageTypeError (invalid_image_type_msg settings))
  ∧ validate_file settings fsW pSub = Except.error (ImgError.NotAFileError
      (pSub.toStr ++ " exists but is not a file, kindly pass a valid file path"))
  ∧ validate_file settings fsW pMissing = Except.error (ImgError.FileNotFoundError
      (pMissing.toStr ++ " was not found in your path, kindly review the path provided")) :=
  ⟨((c6_validate_file_spec fsW pPng).2.2.1 rfl).1.mpr (by decide),
   ((c6_validate_file_spec fsW pTxt).2.2.1 rfl).2 (by decide),
   (c6_validate_file_spec fsW pSub).2.1 rfl,
   (c6_validate_file_spec fsW pMissing).1 rfl⟩

/-- Concrete witness for claim C4, instantiating the four branches and the
fail-fast behaviour of the batch entry point. -/
theorem c4_validate_path_args_spec_witness :
    validate_path_args [pA] (some dDir)
      = Except.error (ImgError.MutualExclusionError mutual_exclusion_msg)
  ∧ validate_path_args [] none
      = Except.error (ImgError.MissingRequiredPathError missing_required_msg)
  ∧ validate_path_args [pA] none = Except.ok ()
  ∧ validate_path_args [] (some dDir) = Except.ok ()
  ∧ resize_bulk_images settings [] emptyGlob [pA] (some dDir) "png" none 200 200 false
      = BulkResult.err (ImgError.MutualExclusionError mutual_exclusion_msg) :=
  ⟨(c4_validate_path_args_spec [pA] (some dDir)).1 (by simp) rfl,
   (c4_validate_path_args_spec [] none).2.1 rfl rfl,
   (c4_validate_path_args_spec [pA] none).2.2.1 (by simp) rfl,
   (c4_validate_path_args_spec [] (some dDir)).2.2.2.1 rfl rfl,
   (c4_validate_path_args_spec [pA] (some dDir)).2.2.2.2
     (ImgError.MutualExclusionError mutual_exclusion_msg)
     ((c4_validate_path_args_spec [pA] (some dDir)).1 (by simp) rfl)
     settings [] emptyGlob "png" none 200 200 false⟩

/-- Claim C5 counterexample: a batch over a directory that matches no files
does not return with zero outcomes; the scanner calls exit(0) (the batch
entry point leaves exit_if_empty at its default true), so the process
terminates instead of returning. -/
theorem c5_counterexample :
    resize_bulk_images settings fsD emptyGlob [] (some dDir) "png" none 200 200 false
      = BulkResult.exited 0
  ∧ BulkResult.exited 0 ≠ BulkResult.completed [] := by
  constructor
  · rfl
  · intro h
    cases h

/-- Claim C5 amended: for every batch whose resolved directory scan is
empty, no task is launched, but the call terminates the process with exit
status 0 rather than returning; only a direct scan with exit_if_empty false
returns the empty list. -/
theorem c5_empty_scan_exits (cfg : Settings) (fs : FS)
    (globFn : PyPath → Bool → String → List PyPath) (d : PyPath)
    (save_as : String) (hgt wdt : Nat) (rcv : Bool)
    (hdir : fsLookup fs d = some FSKind.directory)
    (hglob : ∀ ext ∈ cfg.supported_extensions, globFn d rcv ("*." ++ ext) = []) :
    resize_bulk_images cfg fs globFn [] (some d) save_as none hgt wdt rcv
      = BulkResult.exited 0
  ∧ get_paths_from_dir fs globFn d cfg.supported_extensions rcv false
      = ScanResult.found []
  ∧ ∀ ts, resize_bulk_images cfg fs globFn [] (some d) save_as none hgt wdt rcv
      ≠ BulkResult.completed ts := by
  have hv : validate_directory fs d = Except.ok d := by
    simp [validate_directory, validate_path, fsExistsAt, fsIsDir, hdir]
  have hfold : List.foldl (fun acc ext => acc ++ globFn d rcv ("*." ++ ext)) []
      cfg.supported_extensions = [] := by
    rw [foldl_append_eq_flatten]
    rw [flatten_eq_nil_of_forall (fun ext => globFn d rcv ("*." ++ ext))
      cfg.supported_extensions hglob]
    rfl
  have hscan : ∀ eie : Bool, get_paths_from_dir fs globFn d cfg.supported_extensions rcv eie
      = if eie then ScanResult.exited 0 else ScanResult.found [] := by
    intro eie
    simp only [get_paths_from_dir, hv, hfold]
    cases eie <;> rfl
  have hbulk : resize_bulk_images cfg fs globFn [] (some d) save_as none hgt wdt rcv
      = BulkResult.exited 0 := by
    simp only [resize_bulk_images, validate_path_args]
    simp only [effective_scan_extensions, hscan true]
    rfl
  refine ⟨hbulk, ?_, ?_⟩
  · simpa using hscan false
  · intro ts h
    rw [hbulk] at h
    cases h

/-- Concrete witness for the amended claim C5. -/
theorem c5_empty_scan_exits_witness :
    resize_bulk_images settings fsD emptyGlob [] (some dDir) "png" none 200 200 false
      = BulkResult.exited 0
  ∧ get_paths_from_dir fsD emptyGlob dDir settings.supported_extensions false false
      = ScanResult.found [] :=
  ⟨(c5_empty_scan_exits settings fsD emptyGlob dDir "png" 200 200 false rfl
      (fun _ _ => rfl)).1,
   (c5_empty_scan_exits settings fsD emptyGlob dDir "png" 200 200 false rfl
      (fun _ _ => rfl)).2.1⟩

/-- Claim C8 counterexample: a scan whose extension set matches nothing at
all does not return the empty concatenation; with the default exit_if_empty
the process exits with status 0 instead. -/
theorem c8_counterexample :
    get_paths_from_dir fsD emptyGlob dDir ["gif"] false true = ScanResult.exited 0
  ∧ ScanResult.exited 0 ≠ ScanResult.found [] := by
  constructor
  · rfl
  · intro h
    cases h

/-- Claim C8 amended: over any directory and ordered extension list the scan
accumulates exactly the concatenation, in extension order, of the glob
matches of each extension pattern (an extension with zero matches
contributes nothing and causes no failure), and returns that concatenation
whenever it is non-empty or exit_if_empty is false; when the whole
concatenation is empty and exit_if_empty is true the process exits with
status 0 instead of returning. -/
theorem c8_scan_concatenation (fs : FS)
    (globFn : PyPath → Bool → String → List PyPath) (d : PyPath)
    (exts : List String) (rcv : Bool) (eie : Bool)
    (hdir : fsLookup fs d = some FSKind.directory) :
    ((exts.map (fun e => globFn d rcv ("*." ++ e))).flatten ≠ [] ∨ eie = false →
      get_paths_from_dir fs globFn d exts rcv eie
        = ScanResult.found ((exts.map (fun e => globFn d rcv ("*." ++ e))).flatten))
  ∧ ((exts.map (fun e => globFn d rcv ("*." ++ e))).flatten = [] → eie = true →
      get_paths_from_dir fs globFn d exts rcv eie = ScanResult.exited 0) := by
  have hv : validate_directory fs d = Except.ok d := by
    simp [validate_directory, validate_path, fsExistsAt, fsIsDir, hdir]
  have hfold : List.foldl (fun acc ext => acc ++ globFn d rcv ("*." ++ ext)) [] exts
      = (exts.map (fun e => globFn d rcv ("*." ++ e))).flatten := by
    rw [foldl_append_eq_flatten]
    rfl
  constructor
  · intro hc
    simp only [get_paths_from_dir, hv, hfold]
    cases hc with
    | inl hne => simp [List.isEmpty_iff, hne]
    | inr hf =>
      subst hf
      by_cases hrs : (exts.map (fun e => globFn d rcv ("*." ++ e))).flatten = []
      · simp [List.isEmpty_iff, hrs]
      · simp [List.isEmpty_iff, hrs]
  · intro hnil heie
    subst heie
    simp only [get_paths_from_dir, hv, hfold]
    simp [List.isEmpty_iff, hnil]

/-- Concrete witness for the amended claim C8: a directory holding a.png,
b.jpg and c.txt scanned with the extension list png then jpg yields exactly
those two matches in extension order. -/
theorem c8_scan_concatenation_witness :
    get_paths_from_dir fsD globW dDir ["png", "jpg"] false true
      = ScanResult.found [paPng, pbJpg] :=
  (c8_scan_concatenation fsD globW dDir ["png", "jpg"] false true rfl).1
    (Or.inl (by decide))

/-- Claim C1 evaluation at the failing input: with the shipped settings
(skip-existing true, override false) and the candidate output already
present, resize_image does not return the candidate unchanged with no write;
it renames the destination with the uuid token and performs the write. -/
theorem c1_skip_existing_collision_behavior :
    settings.skip_existing_files = true
  ∧ settings.override_existing_files = false
  ∧ candidate_path settings none pA = candA
  ∧ fsExistsAt fsC1 candA = true
  ∧ (resize_image settings fsC1 hex32 false pA none 200 200).returned
      = Except.ok uuidA
  ∧ (resize_image settings fsC1 hex32 false pA none 200 200).written
      = some (uuidA, "JPEG", 90)
  ∧ uuidA ≠ candA :=
  ⟨rfl, rfl, rfl, rfl, rfl, rfl, by decide⟩

/-- Claim C2 evaluation at the failing input: with the shipped settings the
hasattr check replaces the caller-supplied target format png by the
DEFAULT_EXTENSION jpeg, so the destination suffix is .jpeg rather than the
normalised caller format. -/
theorem c2_target_format_ignored :
    candidate_path settings (some "png") pA = candA
  ∧ (resize_image settings fsC2 hex32 false pA (some "png") 200 200).returned
      = Except.ok candA
  ∧ PyPath.suffix candA = ".jpeg"
  ∧ PyPath.suffix candA ≠ normalizeSuffix "png"
  ∧ normalizeSuffix "png" = ".png" :=
  ⟨rfl, rfl, rfl, by decide, rfl⟩

/-- Claim C3 counterexample: a failing save is caught but the task still
returns the destination path as a success with nothing recording the error
kind, and a validation failure is not caught inside the task function at
all: it escapes as an exception. -/
theorem c3_counterexample :
    (resize_image settings fsC2 hex32 true pA none 200 200).saveFailed = true
  ∧ (resize_image settings fsC2 hex32 true pA none 200 200).written = none
  ∧ (resize_image settings fsC2 hex32 true pA none 200 200).returned
      = Except.ok candA
  ∧ (resize_image settings [] hex32 false pMissing none 200 200).returned
      = Except.error (ImgError.FileNotFoundError
          "d/ghost.jpg was not found in your path, kindly review the path provided") :=
  ⟨rfl, rfl, rfl, rfl⟩

/-- Claim C3 amended: a validation failure propagates out of the task
function unchanged (nothing records it in a task outcome), while once
validation passes the task always hands back an ok destination path, even
when the save step raises, in which case the exception is swallowed with no
write performed. -/
theorem c3_task_error_flow (cfg : Settings) (fs : FS) (hex : String)
    (sr : Bool) (p : PyPath) (ext : Option String) (hgt wdt : Nat) :
    (∀ e, validate_file cfg fs p = Except.error e →
        resize_image cfg fs hex sr p ext hgt wdt
          = { returned := Except.error e, written := none,
              saveFailed := false, resizeCall := none })
  ∧ (validate_file cfg fs p = Except.ok p →
      (∃ dest, (resize_image cfg fs hex sr p ext hgt wdt).returned
          = Except.ok dest)
    ∧ ((fsExistsAt fs (candidate_path cfg ext p)
          && !cfg.skip_existing_files) = false →
        (resize_image cfg fs hex true p ext hgt wdt).written = none
      ∧ (resize_image cfg fs hex true p ext hgt wdt).saveFailed = true)) := by
  constructor
  · intro e h
    simp only [resize_image, h]
  · intro h
    constructor
    · simp only [resize_image, h]
      split
      · exact ⟨_, rfl⟩
      · split
        · exact ⟨_, rfl⟩
        · exact ⟨_, rfl⟩
    · intro hc
      simp only [resize_image, h, hc]
      constructor
      · rfl
      · rfl

/-- Concrete witness for the amended claim C3: the validation-failure path
and the swallowed-save-failure path, both at explicit inputs. -/
theorem c3_task_error_flow_witness :
    resize_image settings [] hex32 false pMissing none 200 200
      = { returned := Except.error (ImgError.FileNotFoundError
            "d/ghost.jpg was not found in your path, kindly review the path provided"),
          written := none, saveFailed := false, resizeCall := none }
  ∧ (resize_image settings fsC2 hex32 true pA none 200 200).written = none
  ∧ (resize_image settings fsC2 hex32 true pA none 200 200).saveFailed = true :=
  ⟨(c3_task_error_flow settings [] hex32 false pMissing none 200 200).1
      (ImgError.FileNotFoundError
        "d/ghost.jpg was not found in your path, kindly review the path provided") rfl,
   ((c3_task_error_flow settings fsC2 hex32 true pA none 200 200).2 rfl).2 rfl⟩

/-- Claim C7: when the candidate output exists and the code reaches its
unique-suffix branch (with the shipped flag values skip-existing true and
override false, neither the early skip return nor the override pass-through
resolving the collision), the returned destination is the candidate with the
32-character uuid hex token appended to its stem by a hyphen, it differs
from the existing candidate, and the computation consults the filesystem
only at the input path and the candidate path, so the fresh path is never
itself re-checked for collision. -/
theorem c7_unique_suffix_policy (cfg : Settings) (fs : FS) (hex : String)
    (sr : Bool) (p : PyPath) (ext : Option String) (hgt wdt : Nat)
    (hvalid : validate_file cfg fs p = Except.ok p)
    (hexists : fsExistsAt fs (candidate_path cfg ext p) = true)
    (hskip : cfg.skip_existing_files = true)
    (hover : cfg.override_existing_files = false)
    (hhex : isHex128 hex) :
    (resize_image cfg fs hex sr p ext hgt wdt).returned
        = Except.ok (uuid_variant hex (candidate_path cfg ext p))
  ∧ uuid_variant hex (candidate_path cfg ext p) ≠ candidate_path cfg ext p
  ∧ (uuid_variant hex (candidate_path cfg ext p)).name
      = (candidate_path cfg ext p).stem ++ "-" ++ hex
          ++ (candidate_path cfg ext p).suffix
  ∧ (candidate_path cfg ext p).name
      = "resized_" ++ (apply_extension (effective_extension cfg ext) p).name
  ∧ ∀ fs2, fsLookup fs2 p = fsLookup fs p →
      fsExistsAt fs2 (candidate_path cfg ext p)
          = fsExistsAt fs (candidate_path cfg ext p) →
      resize_image cfg fs2 hex sr p ext hgt wdt
          = resize_image cfg fs hex sr p ext hgt wdt := by
  refine ⟨?_, ?_, ?_, rfl, ?_⟩
  · simp only [resize_image, hvalid, hexists, hskip, hover]
    cases sr <;> rfl
  · intro heq
    have hname : (uuid_variant hex (candidate_path cfg ext p)).name
        = (candidate_path cfg ext p).name := congrArg PyPath.name heq
    have hlen := congrArg String.length hname
    rw [← stem_append_suffix (candidate_path cfg ext p)] at hlen
    simp only [uuid_variant, PyPath.withStem, String.length_append] at hlen
    have h32 : hex.length = 32 := hhex.1
    omega
  · simp only [uuid_variant, PyPath.withStem, String.append_assoc]
  · intro fs2 h1 h2
    have hv2 : validate_file cfg fs2 p = validate_file cfg fs p :=
      validate_file_fs_congr cfg fs fs2 p h1
    simp only [resize_image, hv2, hvalid, h2]

/-- Concrete witness for claim C7: the hypotheses instantiated over a
filesystem in which the input, the candidate and even the uuid-renamed path
all exist, so the absence of a second collision check is observable. -/
theorem c7_unique_suffix_policy_witness :
    (resize_image settings fsC7 hex32 false pA none 200 200).returned
        = Except.ok (uuid_variant hex32 (candidate_path settings none pA))
  ∧ uuid_variant hex32 (candidate_path settings none pA)
      ≠ candidate_path settings none pA
  ∧ resize_image settings fsC7 hex32 false pA none 200 200
      = resize_image settings fsC1 hex32 false pA none 200 200 := by
  refine ⟨?_, ?_, ?_⟩
  · exact (c7_unique_suffix_policy settings fsC7 hex32 false pA none 200 200
      rfl rfl rfl rfl ⟨rfl, rfl⟩).1
  · exact (c7_unique_suffix_policy settings fsC7 hex32 false pA none 200 200
      rfl rfl rfl rfl ⟨rfl, rfl⟩).2.1
  · exact (c7_unique_suffix_policy settings fsC1 hex32 false pA none 200 200
      rfl rfl rfl rfl ⟨rfl, rfl⟩).2.2.2.2 fsC7 rfl rfl

/-- Claim C9 counterexample: at width 100 and height 200 the root draft
hands the codec the tuple (200, 100) while the package implementation hands
it (100, 200), so the drafts do not request the same output dimensions. -/
theorem c9_counterexample :
    resize_dims_root_draft 100 200 ≠ resize_dims_image_utils 100 200 := by
  decide

/-- Claim C9 amended: the package implementation and the py_resizer draft
pass the dimension tuple as (width, height) while the root draft passes
(height, width); the three agree exactly when width equals height.  The
resize task model records precisely the package tuple. -/
theorem c9_resize_dims_drafts :
    (∀ w h : Nat, resize_dims_image_utils w h = (w, h)
      ∧ resize_dims_py_resizer w h = (w, h)
      ∧ resize_dims_root_draft w h = (h, w))
  ∧ (∀ w h : Nat,
      resize_dims_root_draft w h = resize_dims_image_utils w h ↔ w = h)
  ∧ (∀ cfg fs hex sr p ext hgt wdt,
      (resize_image cfg fs hex sr p ext hgt wdt).resizeCall = none
    ∨ (resize_image cfg fs hex sr p ext hgt wdt).resizeCall
        = some (resize_dims_image_utils wdt hgt)) := by
  refine ⟨?_, ?_, ?_⟩
  · intro w h
    exact ⟨rfl, rfl, rfl⟩
  · intro w h
    constructor
    · intro hh
      have h1 : h = w := congrArg Prod.fst hh
      exact h1.symm
    · intro hh
      subst hh
      rfl
  · intro cfg fs hex sr p ext hgt wdt
    cases hv : validate_file cfg fs p with
    | error e =>
      left
      simp [resize_image, hv]
    | ok q =>
      right
      simp only [resize_image, hv]
      split
      · rfl
      · split
        · rfl
        · rfl
